import Mathlib

/-!
Shallow embedding of `src/api.ts` (the response-generation router of the
alex-chat application): provider callers for Gemini / OpenRouter / SambaNova,
Gemini key rotation, auto-mode model fallback, search mode with grounding
sources, and the main dispatch function `generateResponse`.

Network effects are abstracted: every `fetch` plus the subsequent SSE decode
loop is represented by an explicit outcome value (the thrown error, the
non-2xx response, or the list of parsed `data:` objects the stream produced).
Callback effects (`onChunk`, `onResetContent`, `addLog`) do not influence the
return value, so they are dropped, except in `callSearchMode` where the trace
of emitted effects is returned alongside the result in order to reason about
callback ordering.  JS strings are modelled as Lean `String`
(`String.prototype.slice` on code units becomes a take on `Char` lists).
-/

namespace AlexChat

/-- Decidable equality for `Except`, so that results of the modelled calls
can be evaluated on concrete inputs by `decide`. -/
instance {ε α : Type} [DecidableEq ε] [DecidableEq α] : DecidableEq (Except ε α) :=
  fun x y =>
    match x, y with
    | Except.ok a, Except.ok b =>
      if h : a = b then isTrue (by rw [h]) else isFalse (by simp [h])
    | Except.error a, Except.error b =>
      if h : a = b then isTrue (by rw [h]) else isFalse (by simp [h])
    | Except.ok _, Except.error _ => isFalse (by simp)
    | Except.error _, Except.ok _ => isFalse (by simp)

/-! ### String helpers (JS string primitives used by api.ts) -/

/-- Model of the JS slice `s.slice(0, n)` (truncation used for error text). -/
def strTake (n : Nat) (s : String) : String := ⟨s.data.take n⟩

/-- Drop the literal pattern from the front of a character list, if present. -/
def dropPre : List Char → List Char → Option (List Char)
  | [], cs => some cs
  | _ :: _, [] => none
  | p :: ps, c :: cs => if p = c then dropPre ps cs else none

/-- Is the first list a literal prefix of the second?  (A reimplementation
of list `isPrefixOf` that recurses on the pattern first, so that it reduces
definitionally when the pattern is concrete.) -/
def prefixAt (p cs : List Char) : Bool :=
  match p with
  | [] => true
  | a :: as =>
    match cs with
    | [] => false
    | b :: bs => a == b && prefixAt as bs

/-- Does the boolean predicate hold on some suffix of the list? -/
def anySuffixP (p : List Char → Bool) : List Char → Bool
  | [] => p []
  | c :: cs => p (c :: cs) || anySuffixP p cs

/-- Model of JS `hay.includes(pat)` (substring containment). -/
def strContains (hay pat : String) : Bool :=
  anySuffixP (fun suf => prefixAt pat.data suf) hay.data

/-- Model of JS `s.startsWith(pfx)`. -/
def jsStartsWith (s pfx : String) : Bool := prefixAt pfx.data s.data

/-- Lowercased character list of a string (ASCII case-insensitivity of the
`i` regex flag; the patterns of `isRetryableError` are ASCII). -/
def lowerChars (s : String) : List Char := s.data.map Char.toLower

/-- JS regex `.` (no `s` flag) matches anything except a line terminator. -/
def isLineTerm (c : Char) : Bool :=
  c = '\n' || c = '\r' || c = '\u2028' || c = '\u2029'

/-- Match of the alternative `rate.?limit` at the head of the list. -/
def rateLimitAt (cs : List Char) : Bool :=
  match dropPre "rate".data cs with
  | none => false
  | some rest =>
    prefixAt "limit".data rest ||
      (match rest with
       | [] => false
       | c :: rest2 => !isLineTerm c && prefixAt "limit".data rest2)

/-- Match of the alternative `keys? failed` at the head of the list. -/
def keysFailedAt (cs : List Char) : Bool :=
  match dropPre "key".data cs with
  | none => false
  | some rest =>
    prefixAt " failed".data rest ||
      (match rest with
       | 's' :: rest2 => prefixAt " failed".data rest2
       | _ => false)

/-- Match of one alternative of the retryable-error pattern at the head of the
(lowercased) list: `429|500|503|overloaded|quota|rate.?limit|capacity|unavailable|keys? failed|exhausted`. -/
def retryAltAt (cs : List Char) : Bool :=
  prefixAt "429".data cs || prefixAt "500".data cs || prefixAt "503".data cs ||
  prefixAt "overloaded".data cs || prefixAt "quota".data cs || rateLimitAt cs ||
  prefixAt "capacity".data cs || prefixAt "unavailable".data cs ||
  keysFailedAt cs || prefixAt "exhausted".data cs

/-- Model of `isRetryableError` (api.ts:269): case-insensitive regex test of
the retryable pattern anywhere in the message. -/
def isRetryableError (errorMsg : String) : Bool :=
  anySuffixP retryAltAt (lowerChars errorMsg)

/-- Concatenation of a list of strings by a left fold (the `+=` accumulation
loops of api.ts). -/
def concatAll (l : List String) : String := List.foldl (fun a b => a ++ b) "" l

/-- Split a character list at every `/` (model of JS `model.split('/')`). -/
def splitOnSlash : List Char → List (List Char)
  | [] => [[]]
  | c :: cs =>
    match splitOnSlash cs with
    | [] => [[]]
    | h :: t => if c = '/' then [] :: h :: t else (c :: h) :: t

/-- Remove the first occurrence of the pattern (JS `s.replace(pat, '')`). -/
def removeFirstOcc (pat : List Char) : List Char → List Char
  | [] => []
  | c :: cs =>
    match dropPre pat (c :: cs) with
    | some rest => rest
    | none => c :: removeFirstOcc pat cs

/-- Whitespace for JS `String.prototype.trim` (WhiteSpace plus line
terminators). -/
def isJsWhitespace (c : Char) : Bool :=
  c = ' ' || c = '\t' || c = '\n' || c = '\r' || c = '\x0b' || c = '\x0c' ||
  c = '\u00A0' || c = '\u1680' || (('\u2000' ≤ c) && (c ≤ '\u200A')) ||
  c = '\u2028' || c = '\u2029' || c = '\u202F' || c = '\u205F' ||
  c = '\u3000' || c = '\uFEFF'

/-- Model of JS `s.trim()`. -/
def jsTrim (s : String) : String :=
  ⟨((s.data.dropWhile isJsWhitespace).reverse.dropWhile isJsWhitespace).reverse⟩

/-! ### Data model (api.ts interfaces) -/

/-- Message role (`'user' | 'assistant'`). -/
inductive Role
  | user
  | assistant
deriving DecidableEq

/-- `ChatMessage` (api.ts:9), restricted to the fields the router reads
(`role`, `content`, `images`); `id`, `timestamp` and the transient UI flags
never influence any return value. -/
structure ChatMessage where
  role : Role
  content : String
  images : List String
deriving DecidableEq

/-- `AppConfig` (api.ts:30), restricted to the fields the router reads. -/
structure AppConfig where
  googleKeys : List String
  openrouterKey : String
  sambaKey : String
  systemPrompt : String
  openrouterModels : List String
deriving DecidableEq

/-- Target provider of an auto-mode strategy. -/
inductive Provider
  | google
  | openrouter
  | sambanova
deriving DecidableEq, BEq

/-- `AutoModeConfig` (api.ts:54). -/
structure AutoModeConfig where
  label : String
  description : String
  provider : Provider
  models : List String
deriving DecidableEq

/-- The `AUTO_MODES` table (api.ts:61), as an ordered association list. -/
def AUTO_MODES : List (String × AutoModeConfig) :=
  [ ("auto-gemini-flash",
      ⟨"Gemini Fast", "Flash models · auto-fallback", Provider.google,
        ["gemini-flash-latest", "gemini-3-flash-preview", "gemini-2.5-flash",
         "gemini-2.0-flash"]⟩),
    ("auto-gemini-pro",
      ⟨"Gemini Pro", "Pro models · best quality", Provider.google,
        ["gemini-3-pro-preview", "gemini-2.5-pro"]⟩),
    ("auto-openrouter",
      ⟨"OpenRouter", "Random free model", Provider.openrouter, []⟩),
    ("auto-samba",
      ⟨"SambaNova", "Fast inference · auto-fallback", Provider.sambanova,
        ["DeepSeek-R1-0528", "DeepSeek-V3.1", "DeepSeek-V3-0324",
         "gpt-oss-120b"]⟩),
    ("auto-search",
      ⟨"AI Search", "Google Search · grounded answers", Provider.google, []⟩) ]

/-- Lookup `AUTO_MODES[model]`. -/
def autoFind (model : String) : Option AutoModeConfig :=
  (AUTO_MODES.find? (fun p => p.1 == model)).map Prod.snd

/-- Model of `isAutoMode` (api.ts:107): `model in AUTO_MODES`. -/
def isAutoMode (model : String) : Bool := (autoFind model).isSome

/-- Model of `isGoogleModel` (api.ts:190). -/
def isGoogleModel (model : String) : Bool :=
  match autoFind model with
  | some ac => ac.provider == Provider.google
  | none => jsStartsWith model "gemini"

/-- Model of `isSambaModel` (api.ts:195); the anchored regex
`^(DeepSeek-|gpt-oss-)` is a prefix test. -/
def isSambaModel (model : String) : Bool :=
  match autoFind model with
  | some ac => ac.provider == Provider.sambanova
  | none => jsStartsWith model "DeepSeek-" || jsStartsWith model "gpt-oss-"

/-- Model of `isImageCapableModel` (api.ts:200). -/
def isImageCapableModel (model : String) : Bool := strContains model "image"

/-- Model of `getModelShortName` (api.ts:204); JS
`model.split('/').pop()?.replace(':free', '') || model`. -/
def getModelShortName (model : String) : String :=
  if model = "auto-gemini-flash" then "Auto: Flash"
  else if model = "auto-gemini-pro" then "Auto: Pro"
  else if model = "auto-openrouter" then "Auto: OpenRouter"
  else if model = "auto-samba" then "Auto: Samba"
  else if model = "auto-search" then "AI Search"
  else if strContains model "/" then
    let seg : List Char := ((splitOnSlash model.data).getLast?).getD []
    let r : List Char := removeFirstOcc ":free".data seg
    if r = [] then model else ⟨r⟩
  else model

/-! ### Gemini streaming (api.ts:277, `callGeminiStreaming`)

One parsed SSE `data:` object of the Gemini stream.  Lines that do not start
with `data: `, empty payloads, `[DONE]` payloads and JSON parse failures are
all skipped by the source without any state change, so they are not
represented.  A part with falsy `text` is encoded as `text = ""`; a missing
`promptFeedback.blockReason` (or a falsy one) is `none`. -/

/-- One element of `candidates[0].content.parts`. -/
structure GPart where
  text : String
  inlineData : Option (String × String)
deriving DecidableEq

/-- One parsed stream object. -/
inductive GeminiData
  | err (code : String) (msg : String)
  | noCand (blockReason : Option String)
  | cand (parts : List GPart)
deriving DecidableEq

/-- Accumulator of the stream decode loop of `callGeminiStreaming`. -/
structure GState where
  fullText : String
  images : List String
  gotContent : Bool
deriving DecidableEq

/-- Processing of one part (api.ts:368): accumulate truthy `part.text`,
collect `part.inlineData` as a data URI; either sets `gotContent`. -/
def stepPart (st : GState) (p : GPart) : GState :=
  let st1 := if p.text ≠ "" then
      { st with fullText := st.fullText ++ p.text, gotContent := true }
    else st
  match p.inlineData with
  | some md =>
      { st1 with images := st1.images ++ ["data:" ++ md.1 ++ ";base64," ++ md.2],
                 gotContent := true }
  | none => st1

/-- The result of one credentials attempt: the fetch either rejects
(`thrown`), returns a non-2xx status, or streams a list of data objects. -/
inductive FetchOutcome
  | thrown (msg : String)
  | httpError (status : Nat) (body : String)
  | ok (events : List GeminiData)
deriving DecidableEq

/-- Stream decode loop of one Gemini attempt (api.ts:338-399): in-stream
errors and prompt blocks return the partial result when content was already
produced and otherwise abort the attempt; an empty terminal result aborts the
attempt with `Empty response from model`. -/
def runGeminiEvents (st : GState) : List GeminiData → Except String (String × List String)
  | [] =>
    if st.gotContent = false ∧ st.fullText = "" ∧ st.images = [] then
      Except.error "Empty response from model"
    else Except.ok (st.fullText, st.images)
  | d :: rest =>
    match d with
    | GeminiData.err code msg =>
      if st.gotContent then Except.ok (st.fullText, st.images)
      else Except.error ("Stream error " ++ code ++ ": " ++ strTake 200 msg)
    | GeminiData.noCand br =>
      match br with
      | some reason =>
        if st.gotContent then Except.ok (st.fullText, st.images)
        else Except.error ("Prompt blocked: " ++ reason)
      | none => runGeminiEvents st rest
    | GeminiData.cand ps => runGeminiEvents (List.foldl stepPart st ps) rest

/-- One whole credentials attempt (fetch plus stream decode). -/
def runGeminiAttempt : FetchOutcome → Except String (String × List String)
  | FetchOutcome.thrown msg => Except.error msg
  | FetchOutcome.httpError status body =>
      Except.error ("HTTP " ++ toString status ++ ": " ++ strTake 200 body)
  | FetchOutcome.ok events => runGeminiEvents ⟨"", [], false⟩ events

/-- Key-rotation loop of `callGeminiStreaming` (api.ts:296-414): the abort
signal is checked before each attempt; an error containing `abort` is
re-raised; a non-retryable error aborts the whole call; a retryable error
advances to the next key; exhaustion raises the terminal error.  `total` is
the number of shuffled keys, `aborted i` the state of the abort signal when
attempt `i` begins. -/
def geminiKeyLoop (model : String) (total : Nat) (aborted : Nat → Bool) :
    Nat → List FetchOutcome → Except String (String × List String)
  | _, [] =>
      Except.error ("All " ++ toString total ++ " keys failed for " ++ model ++ ".")
  | i, o :: rest =>
    if aborted i then Except.error "Request aborted"
    else
      match runGeminiAttempt o with
      | Except.ok r => Except.ok r
      | Except.error msg =>
        if strContains msg "abort" then Except.error msg
        else if !isRetryableError msg then Except.error msg
        else geminiKeyLoop model total aborted (i + 1) rest

/-- Model of `callGeminiStreaming` (api.ts:277).  The uniform random shuffle
of the credential list is abstracted: `attempts` is the list of fetch
outcomes in the shuffled key order (one per key, so its length is the number
of configured keys, and it is empty exactly when `keys.length === 0`). -/
def callGeminiStreaming (model : String) (attempts : List FetchOutcome)
    (aborted : Nat → Bool) : Except String (String × List String) :=
  if attempts = [] then
    Except.error "No Google API keys configured. Go to Settings → API Keys."
  else geminiKeyLoop model attempts.length aborted 0 attempts

/-! ### OpenRouter / SambaNova streaming (api.ts:421, api.ts:487)

Both callers decode an OpenAI-compatible SSE stream.  The outcome of the
single fetch is `thrown` (rejection, including an abort), a non-2xx status,
or the list of `choices[0].delta.content` values of the parsed `data:` lines,
in stream order; a line that is skipped (`[DONE]`, malformed JSON, missing
delta) is encoded as `""`, which the truthiness guard of the source ignores. -/

/-- Outcome of one OpenAI-compatible streaming fetch. -/
inductive OAIOutcome
  | thrown (msg : String)
  | httpError (status : Nat) (body : String)
  | ok (deltas : List String)
deriving DecidableEq

/-- Text accumulation loop shared by both callers (`if (chunk) fullText += chunk`). -/
def concatDeltas (deltas : List String) : String :=
  List.foldl (fun acc s => if s ≠ "" then acc ++ s else acc) "" deltas

/-- Model of `callOpenRouter` (api.ts:421). -/
def callOpenRouter (model : String) (apiKey : String) (outcome : OAIOutcome) :
    Except String (String × List String) :=
  if apiKey = "" then
    Except.error "No OpenRouter API key. Go to Settings → API Keys."
  else
    match outcome with
    | OAIOutcome.thrown msg => Except.error msg
    | OAIOutcome.httpError status body =>
        Except.error ("OpenRouter " ++ toString status ++ ": " ++ strTake 200 body)
    | OAIOutcome.ok deltas => Except.ok (concatDeltas deltas, [])

/-- Model of `callSambaNovaStreaming` (api.ts:487). -/
def callSambaNovaStreaming (model : String) (apiKey : String) (outcome : OAIOutcome) :
    Except String (String × List String) :=
  if apiKey = "" then
    Except.error "No SambaNova API key. Go to Settings → API Keys."
  else
    match outcome with
    | OAIOutcome.thrown msg => Except.error msg
    | OAIOutcome.httpError status body =>
        Except.error ("SambaNova " ++ toString status ++ ": " ++ strTake 200 body)
    | OAIOutcome.ok deltas => Except.ok (concatDeltas deltas, [])

/-! ### Search mode (api.ts:558-860) -/

/-- `GroundingSource` (api.ts:558). -/
structure GSource where
  title : String
  url : String
deriving DecidableEq

/-- One element of `groundingMetadata.groundingChunks`: `uri` is
`chunk.web.uri` with `""` for a missing or falsy value (the source skips
those), `title` is `chunk.web.title || ''`. -/
structure GChunk where
  uri : String
  title : String
deriving DecidableEq

/-- Collection of one grounding chunk (api.ts:671-683): dedup by URL, push at
the end. -/
def addChunk (sources : List GSource) (c : GChunk) : List GSource :=
  if c.uri ≠ "" ∧ sources.any (fun s => s.url == c.uri) = false then
    sources ++ [⟨c.title, c.uri⟩]
  else sources

/-- Collection of a list of grounding chunks in stream order. -/
def addChunks (sources : List GSource) (cs : List GChunk) : List GSource :=
  List.foldl addChunk sources cs

/-- One parsed SSE data object of the grounded-search stream: an error
object, an empty candidate list (skipped), or a candidate with its text
parts (with `""` for falsy `part.text`), grounding chunks and search-query
metadata (the latter is only logged by the source). -/
inductive SearchData
  | err (msg : String)
  | noCand
  | cand (parts : List String) (chunks : List GChunk) (queries : Option (List String))
deriving DecidableEq

/-- Accumulator of the grounded-search decode loop. -/
structure SState where
  fullText : String
  sources : List GSource
  gotContent : Bool
deriving DecidableEq

/-- Accumulate one truthy text part. -/
def stepSearchText (st : SState) (t : String) : SState :=
  if t ≠ "" then { st with fullText := st.fullText ++ t, gotContent := true }
  else st

/-- Stream decode loop of one grounded-search attempt (api.ts:633-724). -/
def runSearchEvents (st : SState) : List SearchData → Except String (String × List GSource)
  | [] =>
    if st.gotContent = false ∧ st.fullText = "" then
      Except.error "Empty search response"
    else Except.ok (st.fullText, st.sources)
  | d :: rest =>
    match d with
    | SearchData.err msg =>
      if st.gotContent then Except.ok (st.fullText, st.sources)
      else Except.error ("Stream error: " ++ strTake 200 msg)
    | SearchData.noCand => runSearchEvents st rest
    | SearchData.cand parts chunks _queries =>
      let st1 := List.foldl stepSearchText st parts
      runSearchEvents { st1 with sources := addChunks st1.sources chunks } rest

/-- Outcome of one grounded-search fetch. -/
inductive SearchFetchOutcome
  | thrown (msg : String)
  | httpError (status : Nat) (body : String)
  | ok (events : List SearchData)
deriving DecidableEq

/-- One whole grounded-search attempt; a non-2xx body carrying a
`not supported` / `FAILED_PRECONDITION` marker is rewritten to `HTTP 400`
(api.ts:617-624). -/
def runSearchAttempt : SearchFetchOutcome → Except String (String × List GSource)
  | SearchFetchOutcome.thrown msg => Except.error msg
  | SearchFetchOutcome.httpError status body =>
    if strContains body "not supported" || strContains body "FAILED_PRECONDITION" then
      Except.error ("HTTP 400: " ++ strTake 200 body)
    else Except.error ("HTTP " ++ toString status ++ ": " ++ strTake 200 body)
  | SearchFetchOutcome.ok events => runSearchEvents ⟨"", [], false⟩ events

/-- The fixed model list of `callGeminiWithSearch` (api.ts:588). -/
def searchModels : List String := ["gemini-2.5-flash", "gemini-2.0-flash"]

/-- Attempt loop of `callGeminiWithSearch` (api.ts:590-739) over the
flattened model × key iteration: the abort signal is checked before every
attempt; an error containing `abort` or a location error is re-raised; any
other failure advances to the next attempt. -/
def searchLoop (aborted : Nat → Bool) (outcomes : Nat → SearchFetchOutcome) :
    Nat → List (String × String) → Except String (String × List GSource)
  | _, [] => Except.error "Google Search failed with all keys/models"
  | i, _ :: rest =>
    if aborted i then Except.error "Request aborted"
    else
      match runSearchAttempt (outcomes i) with
      | Except.ok r => Except.ok r
      | Except.error msg =>
        if strContains msg "abort" then Except.error msg
        else if strContains msg "not supported" || strContains msg "FAILED_PRECONDITION" then
          Except.error msg
        else searchLoop aborted outcomes (i + 1) rest

/-- Model of `callGeminiWithSearch` (api.ts:578): tries each search-capable
model against each shuffled key; `outcomes i` is the fetch outcome of the
i-th attempt in that order. -/
def callGeminiWithSearch (shuffledKeys : List String) (aborted : Nat → Bool)
    (outcomes : Nat → SearchFetchOutcome) : Except String (String × List GSource) :=
  searchLoop aborted outcomes 0
    ((searchModels.map (fun m => shuffledKeys.map (fun k => (m, k)))).flatten)

/-- The fixed fallback model list of `callFallbackSearch` (api.ts:758). -/
def fallbackSambaModels : List String := ["DeepSeek-V3.1", "DeepSeek-V3-0324", "gpt-oss-120b"]

/-- SambaNova loop of `callFallbackSearch` (api.ts:757-770): `none` means the
loop was exhausted and control falls through to the OpenRouter branch. -/
def fallbackSambaLoop (sambaKey : String) (aborted : Nat → Bool)
    (outcomes : Nat → OAIOutcome) :
    Nat → List String → Option (Except String (String × List String))
  | _, [] => none
  | i, m :: rest =>
    if aborted i then some (Except.error "aborted")
    else
      match callSambaNovaStreaming m sambaKey (outcomes i) with
      | Except.ok r => some (Except.ok r)
      | Except.error msg =>
        if strContains msg "abort" then some (Except.error msg)
        else fallbackSambaLoop sambaKey aborted outcomes (i + 1) rest

/-- OpenRouter branch and terminal error of `callFallbackSearch`
(api.ts:772-779). -/
def fallbackRest (cfg : AppConfig) (orOutcome : OAIOutcome) :
    Except String (String × List String) :=
  if cfg.openrouterKey ≠ "" ∧ 0 < cfg.openrouterModels.length then
    callOpenRouter (cfg.openrouterModels.headD "") cfg.openrouterKey orOutcome
  else
    Except.error "AI Search requires Google API keys (for web search) or SambaNova/OpenRouter keys (for knowledge-based answers). Add keys in Settings."

/-- Model of `callFallbackSearch` (api.ts:746). -/
def callFallbackSearch (cfg : AppConfig) (aborted : Nat → Bool)
    (sambaOutcomes : Nat → OAIOutcome) (orOutcome : OAIOutcome) :
    Except String (String × List String) :=
  if cfg.sambaKey ≠ "" then
    match fallbackSambaLoop cfg.sambaKey aborted sambaOutcomes 0 fallbackSambaModels with
    | some r => r
    | none => fallbackRest cfg orOutcome
  else fallbackRest cfg orOutcome

/-- `messages[messages.length - 1]?.content || ''` (api.ts:795). -/
def lastUserQuery (messages : List ChatMessage) : String :=
  match messages.getLast? with
  | some m => m.content
  | none => ""

/-- One Markdown source line (api.ts:836-837): the link title falls back to
`new URL(url).hostname` when the source has no title, and to the raw URL when
the URL constructor throws.  The platform URL parser is abstracted as the
function `hostname` (`none` = constructor throws). -/
def sourceLine (hostname : String → Option String) (s : GSource) : String :=
  let title := if s.title ≠ "" then s.title
    else match hostname s.url with
         | some h => h
         | none => s.url
  "- [" ++ title ++ "](" ++ s.url ++ ")\n"

/-- Appending of the machine-parseable sources block (api.ts:832-840). -/
def appendSourcesBlock (hostname : String → Option String) (text : String)
    (sources : List GSource) : String :=
  if 0 < sources.length then
    text ++ "\n\n<!--SOURCES-->\n" ++
      List.foldl (fun acc s => acc ++ sourceLine hostname s) "" sources ++
      "<!--/SOURCES-->"
  else text

/-- Externally visible callback effects of `callSearchMode`. -/
inductive Effect
  | log (level : String) (message : String)
  | reset
deriving DecidableEq

/-- Environment of one `callSearchMode` invocation: abort-signal states and
fetch outcomes for the primary grounded attempts and for the fallback
attempts, the shuffled key order, and the platform URL parser. -/
structure SearchEnv where
  shuffledKeys : List String
  priAborted : Nat → Bool
  priOutcomes : Nat → SearchFetchOutcome
  fbAborted : Nat → Bool
  fbSamba : Nat → OAIOutcome
  fbOpenrouter : OAIOutcome
  hostname : String → Option String

/-- Model of `callSearchMode` (api.ts:787), returning the result together
with the trace of callback effects the function itself emits (log entries
and `onResetContent` calls, in order; effects emitted inside the callees are
not part of this trace). -/
def callSearchMode (messages : List ChatMessage) (cfg : AppConfig)
    (env : SearchEnv) : Except String (String × List String) × List Effect :=
  if jsTrim (lastUserQuery messages) = "" then (Except.error "Empty query", [])
  else
    let startLog := Effect.log "info" "🔍 AI Search starting..."
    if 0 < cfg.googleKeys.length then
      match callGeminiWithSearch env.shuffledKeys env.priAborted env.priOutcomes with
      | Except.ok (text, sources) =>
          (Except.ok (appendSourcesBlock env.hostname text sources, []),
           [startLog, Effect.reset])
      | Except.error msg =>
        if strContains msg "abort" then (Except.error msg, [startLog, Effect.reset])
        else if strContains msg "not supported" || strContains msg "FAILED_PRECONDITION" then
          (Except.error msg, [startLog, Effect.reset])
        else
          (callFallbackSearch cfg env.fbAborted env.fbSamba env.fbOpenrouter,
           [startLog, Effect.reset,
            Effect.log "warn" ("Google Search failed: " ++ strTake 80 msg ++ ", trying fallback..."),
            Effect.log "info" "📝 No Google keys — using knowledge-based answer",
            Effect.reset])
    else
      (callFallbackSearch cfg env.fbAborted env.fbSamba env.fbOpenrouter,
       [startLog,
        Effect.log "info" "📝 No Google keys — using knowledge-based answer",
        Effect.reset])

/-! ### Auto mode (api.ts:866, `callAutoMode`) -/

/-- Environment of one `callAutoMode` invocation: the abort-signal state
before each candidate attempt, and, per candidate index, the inner
environment of the provider call made for that candidate. -/
structure AutoEnv where
  aborted : Nat → Bool
  geminiAttempts : Nat → List FetchOutcome
  geminiAborted : Nat → Nat → Bool
  oai : Nat → OAIOutcome

/-- Candidate-list resolution of `callAutoMode` (api.ts:878-892):
`shuffledOpenrouterModels` stands for the shuffled copy of
`config.openrouterModels`.  The OpenRouter and SambaNova branches raise a
configuration error on an empty list; the Google branch has no such check. -/
def resolveModels (ac : AutoModeConfig) (shuffledOpenrouterModels : List String) :
    Except String (List String) :=
  match ac.provider with
  | Provider.openrouter =>
    if shuffledOpenrouterModels = [] then
      Except.error "No OpenRouter models configured. Add models in Settings → Models."
    else Except.ok shuffledOpenrouterModels
  | Provider.sambanova =>
    if ac.models = [] then Except.error "No SambaNova models configured."
    else Except.ok ac.models
  | Provider.google => Except.ok ac.models

/-- The provider call made for candidate `i` (api.ts:907-922). -/
def providerCall (ac : AutoModeConfig) (cfg : AppConfig) (env : AutoEnv)
    (i : Nat) (modelName : String) : Except String (String × List String) :=
  match ac.provider with
  | Provider.google =>
      callGeminiStreaming modelName (env.geminiAttempts i) (env.geminiAborted i)
  | Provider.sambanova => callSambaNovaStreaming modelName cfg.sambaKey (env.oai i)
  | Provider.openrouter => callOpenRouter modelName cfg.openrouterKey (env.oai i)

/-- Candidate loop of `callAutoMode` (api.ts:898-940): abort checked before
each candidate; an error containing `abort` is re-raised; a non-retryable
error aborts the chain; a retryable error appends a truncated diagnostic and
advances; exhaustion raises the aggregate error. -/
def autoLoop (ac : AutoModeConfig) (cfg : AppConfig) (env : AutoEnv) (total : Nat) :
    Nat → List String → List String → Except String (String × List String)
  | _, [], allErrors =>
      Except.error ("Auto mode: all " ++ toString total ++
        " models failed. Check API keys or try later.\n\n" ++
        String.intercalate "\n" allErrors)
  | i, m :: rest, allErrors =>
    if env.aborted i then Except.error "Request aborted"
    else
      match providerCall ac cfg env i m with
      | Except.ok r => Except.ok r
      | Except.error msg =>
        if strContains msg "abort" then Except.error msg
        else
          let errs := allErrors ++ [getModelShortName m ++ ": " ++ strTake 80 msg]
          if !isRetryableError msg then Except.error msg
          else autoLoop ac cfg env total (i + 1) rest errs

/-- Model of `callAutoMode` (api.ts:866). -/
def callAutoMode (autoKey : String) (cfg : AppConfig)
    (shuffledOpenrouterModels : List String) (env : AutoEnv) :
    Except String (String × List String) :=
  match autoFind autoKey with
  | none => Except.error ("Unknown auto mode: " ++ autoKey)
  | some ac =>
    match resolveModels ac shuffledOpenrouterModels with
    | Except.error e => Except.error e
    | Except.ok modelsToTry => autoLoop ac cfg env modelsToTry.length 0 modelsToTry []

/-! ### Main router (api.ts:947, `generateResponse`) -/

/-- Environment of one `generateResponse` invocation: the inner environment
each possible callee would use. -/
structure RouterEnv where
  geminiAttempts : List FetchOutcome
  geminiAborted : Nat → Bool
  sambaOutcome : OAIOutcome
  openrouterOutcome : OAIOutcome
  auto : AutoEnv
  shuffledOpenrouterModels : List String
  search : SearchEnv

/-- Model of `generateResponse` (api.ts:947): pure dispatch on the model
identifier, delegating to search mode, auto mode, or a direct provider
caller. -/
def generateResponse (messages : List ChatMessage) (model : String)
    (cfg : AppConfig) (env : RouterEnv) : Except String (String × List String) :=
  if model = "auto-search" then (callSearchMode messages cfg env.search).1
  else if isAutoMode model then
    callAutoMode model cfg env.shuffledOpenrouterModels env.auto
  else if isGoogleModel model then
    callGeminiStreaming model env.geminiAttempts env.geminiAborted
  else if isSambaModel model then
    callSambaNovaStreaming model cfg.sambaKey env.sambaOutcome
  else callOpenRouter model cfg.openrouterKey env.openrouterOutcome

/-! ### Derived observation functions on Gemini streams

Specification-side descriptions of what a stream prefix produces: the text
chunks forwarded to `onChunk` (the truthy `part.text` values in order), the
collected image data URIs, and whether any content was produced.  These are
the quantities the claims speak about. -/

/-- The truthy text parts of one part list, in order. -/
def partChunks (ps : List GPart) : List String :=
  ps.filterMap (fun p => if p.text ≠ "" then some p.text else none)

/-- The text chunks one data object forwards to `onChunk`. -/
def dataChunks : GeminiData → List String
  | GeminiData.cand ps => partChunks ps
  | _ => []

/-- All text chunks of a stream prefix, in order. -/
def eventChunks (l : List GeminiData) : List String := (l.map dataChunks).flatten

/-- The image data URIs of one part list, in order. -/
def partImages (ps : List GPart) : List String :=
  ps.filterMap (fun p => p.inlineData.map (fun md => "data:" ++ md.1 ++ ";base64," ++ md.2))

/-- The image data URIs one data object collects. -/
def dataImages : GeminiData → List String
  | GeminiData.cand ps => partImages ps
  | _ => []

/-- All image data URIs of a stream prefix, in order. -/
def eventImages (l : List GeminiData) : List String := (l.map dataImages).flatten

/-- Does one part set `gotContent` (truthy text or an inline image)? -/
def partHas (p : GPart) : Bool := decide (p.text ≠ "") || p.inlineData.isSome

/-- Does one data object produce content? -/
def dataHas : GeminiData → Bool
  | GeminiData.cand ps => ps.any partHas
  | _ => false

/-- Does a stream prefix produce any content? -/
def eventsHave (l : List GeminiData) : Bool := l.any dataHas

/-- Is a data object one that raises inside the decode loop (an in-stream
error object, or an empty candidate list with a truthy block reason)? -/
def isErrEvent : GeminiData → Bool
  | GeminiData.err _ _ => true
  | GeminiData.noCand (some _) => true
  | _ => false

/-- State transition of one non-raising data object. -/
def stepData (st : GState) : GeminiData → GState
  | GeminiData.cand ps => List.foldl stepPart st ps
  | _ => st

/-- State after a (non-raising) stream prefix. -/
def foldData (st : GState) (l : List GeminiData) : GState := List.foldl stepData st l

/-! ### Concrete fixtures for evaluating the model on closed inputs -/

/-- An `AppConfig` with no credentials and no models. -/
def cfg0 : AppConfig := ⟨[], "", "", "", []⟩

/-- An inert auto-mode environment (never aborted, every fetch rejects). -/
def autoEnv0 : AutoEnv :=
  ⟨fun _ => false, fun _ => [], fun _ _ => false, fun _ => OAIOutcome.thrown ""⟩

/-- An inert search-mode environment. -/
def searchEnv0 : SearchEnv :=
  ⟨[], fun _ => false, fun _ => SearchFetchOutcome.thrown "", fun _ => false,
   fun _ => OAIOutcome.thrown "", OAIOutcome.thrown "", fun _ => none⟩

/-- An inert router environment. -/
def routerEnv0 : RouterEnv :=
  ⟨[], fun _ => false, OAIOutcome.thrown "", OAIOutcome.thrown "", autoEnv0, [],
   searchEnv0⟩

/-! ### Helper lemmas on strings and lists -/

theorem data_append (s t : String) : (s ++ t).data = s.data ++ t.data := by
  cases s; cases t; rfl

theorem str_append_assoc (a b c : String) : (a ++ b) ++ c = a ++ (b ++ c) := by
  cases a; cases b; cases c
  show String.mk _ = String.mk _
  rw [List.append_assoc]

theorem str_append_empty (s : String) : s ++ "" = s := by
  cases s
  show String.mk _ = String.mk _
  rw [List.append_nil]

theorem str_empty_append (s : String) : "" ++ s = s := by
  cases s; rfl

theorem foldl_str_acc (l : List String) (a : String) :
    List.foldl (fun x y => x ++ y) a l = a ++ concatAll l := by
  induction l generalizing a with
  | nil => simp [concatAll, str_append_empty]
  | cons b bs ih =>
    show List.foldl _ (a ++ b) bs = _
    rw [ih (a ++ b), str_append_assoc]
    have h : concatAll (b :: bs) = b ++ concatAll bs := by
      show List.foldl _ ("" ++ b) bs = _
      rw [ih ("" ++ b), str_empty_append]
    rw [h]

theorem concatAll_cons (a : String) (l : List String) :
    concatAll (a :: l) = a ++ concatAll l := by
  show List.foldl _ ("" ++ a) l = _
  rw [foldl_str_acc l ("" ++ a), str_empty_append]

theorem concatAll_append (a b : List String) :
    concatAll (a ++ b) = concatAll a ++ concatAll b := by
  induction a with
  | nil => simp [concatAll, str_empty_append]
  | cons x xs ih => rw [List.cons_append, concatAll_cons, concatAll_cons, ih, str_append_assoc]

theorem anySuffixP_head {p : List Char → Bool} {l : List Char} (h : p l = true) :
    anySuffixP p l = true := by
  cases l with
  | nil => simpa [anySuffixP] using h
  | cons c cs => simp [anySuffixP, h]

theorem anySuffixP_append (p : List Char → Bool) (a b : List Char)
    (h : anySuffixP p b = true) : anySuffixP p (a ++ b) = true := by
  induction a with
  | nil => simpa using h
  | cons c cs ih => simp [anySuffixP, ih]

theorem prefixAt_append_self (p t : List Char) : prefixAt p (p ++ t) = true := by
  induction p with
  | nil => rfl
  | cons c cs ih => simp [prefixAt, ih]

/-! ### Characterization of the grounded-search stream -/

theorem foldSearchText_sources (parts : List String) (st : SState) :
    (List.foldl stepSearchText st parts).sources = st.sources := by
  induction parts generalizing st with
  | nil => rfl
  | cons t ts ih =>
    rw [List.foldl_cons, ih]
    by_cases ht : t = "" <;> simp [stepSearchText, ht]

theorem addChunk_nodup (sources : List GSource) (c : GChunk)
    (h : (sources.map GSource.url).Nodup) :
    ((addChunk sources c).map GSource.url).Nodup := by
  rw [addChunk]
  by_cases hc : c.uri ≠ "" ∧ sources.any (fun s => s.url == c.uri) = false
  · rw [if_pos hc]
    rw [List.map_append]
    rw [List.nodup_append]
    refine ⟨h, List.nodup_singleton _, ?_⟩
    intro a ha hb
    simp only [List.map_cons, List.map_nil, List.mem_singleton] at hb
    subst hb
    rcases List.mem_map.mp ha with ⟨s, hs, hurl⟩
    have hany : sources.any (fun s => s.url == c.uri) = true := by
      apply List.any_eq_true.mpr
      exact ⟨s, hs, by simp [hurl]⟩
    rw [hc.2] at hany
    exact Bool.noConfusion hany
  · rw [if_neg hc]
    exact h

theorem addChunks_nodup (cs : List GChunk) (sources : List GSource)
    (h : (sources.map GSource.url).Nodup) :
    ((addChunks sources cs).map GSource.url).Nodup := by
  induction cs generalizing sources with
  | nil => exact h
  | cons c cs ih => exact ih (addChunk sources c) (addChunk_nodup sources c h)

/-- Every successful grounded-search decode ends with URL-deduplicated
sources. -/
theorem runSearchEvents_nodup :
    ∀ (evs : List SearchData) (st : SState) (text : String) (srcs : List GSource),
      (st.sources.map GSource.url).Nodup →
      runSearchEvents st evs = Except.ok (text, srcs) →
      (srcs.map GSource.url).Nodup := by
  intro evs
  induction evs with
  | nil =>
    intro st text srcs h he
    by_cases hc : st.gotContent = false ∧ st.fullText = ""
    · simp [runSearchEvents, hc] at he
    · simp [runSearchEvents, hc] at he
      rw [← he.2]
      exact h
  | cons d ds ih =>
    intro st text srcs h he
    cases d with
    | err msg =>
      cases hg : st.gotContent with
      | true =>
        simp [runSearchEvents, hg] at he
        rw [← he.2]
        exact h
      | false => simp [runSearchEvents, hg] at he
    | noCand =>
      exact ih st text srcs h (by simpa [runSearchEvents] using he)
    | cand parts chunks queries =>
      refine ih _ text srcs ?_ (by simpa [runSearchEvents] using he)
      show ((addChunks (List.foldl stepSearchText st parts).sources chunks).map
        GSource.url).Nodup
      rw [foldSearchText_sources]
      exact addChunks_nodup chunks st.sources h

theorem fold_sourceLines (hostname : String → Option String) (sources : List GSource) :
    List.foldl (fun acc s => acc ++ sourceLine hostname s) "" sources
      = concatAll (sources.map (sourceLine hostname)) := by
  simp [concatAll, List.foldl_map]

/-! ### Characterization of the Gemini stream decode loop -/

theorem stepParts_spec (ps : List GPart) (st : GState) :
    List.foldl stepPart st ps =
      ⟨st.fullText ++ concatAll (partChunks ps),
       st.images ++ partImages ps,
       st.gotContent || ps.any partHas⟩ := by
  induction ps generalizing st with
  | nil =>
    cases st
    simp [partChunks, partImages, concatAll, str_append_empty]
  | cons p ps ih =>
    rw [List.foldl_cons, ih]
    cases st with
    | mk ft imgs got =>
      by_cases ht : p.text = "" <;> cases hi : p.inlineData <;>
        simp [stepPart, ht, hi, partChunks, partImages, partHas, List.filterMap_cons,
              List.any_cons, concatAll_cons, str_append_assoc, List.append_assoc,
              Bool.or_assoc]

theorem foldData_spec (l : List GeminiData) (st : GState) :
    foldData st l =
      ⟨st.fullText ++ concatAll (eventChunks l),
       st.images ++ eventImages l,
       st.gotContent || eventsHave l⟩ := by
  induction l generalizing st with
  | nil =>
    cases st
    simp [foldData, eventChunks, eventImages, eventsHave, concatAll, str_append_empty]
  | cons d ds ih =>
    have h1 : foldData st (d :: ds) = foldData (stepData st d) ds := rfl
    rw [h1, ih]
    cases d with
    | err code msg =>
      cases st
      simp [stepData, eventChunks, eventImages, eventsHave, dataChunks, dataImages, dataHas]
    | noCand br =>
      cases st
      simp [stepData, eventChunks, eventImages, eventsHave, dataChunks, dataImages, dataHas]
    | cand ps =>
      have h2 : stepData st (GeminiData.cand ps) = List.foldl stepPart st ps := rfl
      rw [h2, stepParts_spec]
      cases st
      simp [eventChunks, eventImages, eventsHave, dataChunks, dataImages, dataHas,
            concatAll_append, str_append_assoc, List.append_assoc, Bool.or_assoc]

theorem runGeminiEvents_append (pre l : List GeminiData) (st : GState) :
    (∀ d ∈ pre, isErrEvent d = false) →
    runGeminiEvents st (pre ++ l) = runGeminiEvents (foldData st pre) l := by
  induction pre generalizing st with
  | nil => intro _; rfl
  | cons d ds ih =>
    intro h
    have hd : isErrEvent d = false := h d (List.mem_cons_self d ds)
    have hrest : ∀ x ∈ ds, isErrEvent x = false :=
      fun x hx => h x (List.mem_cons_of_mem d hx)
    cases d with
    | err code msg => simp [isErrEvent] at hd
    | noCand br =>
      cases br with
      | some r => simp [isErrEvent] at hd
      | none =>
        have h1 : runGeminiEvents st ((GeminiData.noCand none :: ds) ++ l)
            = runGeminiEvents st (ds ++ l) := rfl
        have h2 : foldData st (GeminiData.noCand none :: ds) = foldData st ds := rfl
        rw [h1, h2]
        exact ih st hrest
    | cand ps =>
      have h1 : runGeminiEvents st ((GeminiData.cand ps :: ds) ++ l)
          = runGeminiEvents (List.foldl stepPart st ps) (ds ++ l) := rfl
      have h2 : foldData st (GeminiData.cand ps :: ds)
          = foldData (List.foldl stepPart st ps) ds := rfl
      rw [h1, h2]
      exact ih (List.foldl stepPart st ps) hrest

theorem runAttempt_split (pre l : List GeminiData)
    (h1 : ∀ d ∈ pre, isErrEvent d = false) :
    runGeminiAttempt (FetchOutcome.ok (pre ++ l))
      = runGeminiEvents ⟨concatAll (eventChunks pre), eventImages pre, eventsHave pre⟩ l := by
  show runGeminiEvents ⟨"", [], false⟩ (pre ++ l) = _
  rw [runGeminiEvents_append pre l ⟨"", [], false⟩ h1, foldData_spec]
  simp [str_empty_append]

theorem callGemini_first_ok (model : String) (o : FetchOutcome)
    (tail : List FetchOutcome) (r : String × List String)
    (h : runGeminiAttempt o = Except.ok r) :
    callGeminiStreaming model (o :: tail) (fun _ => false) = Except.ok r := by
  rw [callGeminiStreaming]
  simp [geminiKeyLoop, h]

theorem anySuffixP_cons (p : List Char → Bool) (c : Char) (cs : List Char)
    (h : anySuffixP p cs = true) : anySuffixP p (c :: cs) = true := by
  simp [anySuffixP, h]

theorem retryAlt_at_keys_failed (tail : List Char) :
    retryAltAt ("keys failed".data ++ tail) = true := rfl

/-- The terminal message of `callGeminiStreaming` matches the retryable
pattern through its `keys? failed` alternative, for every count string and
every model name. -/
theorem allKeysFailed_retryable (nstr m : String) :
    isRetryableError ("All " ++ nstr ++ " keys failed for " ++ m ++ ".") = true := by
  rw [isRetryableError]
  have e : lowerChars ("All " ++ nstr ++ " keys failed for " ++ m ++ ".")
      = List.map Char.toLower "All ".data
        ++ (List.map Char.toLower nstr.data
        ++ (List.map Char.toLower " keys failed for ".data
        ++ (List.map Char.toLower m.data ++ List.map Char.toLower ".".data))) := by
    rw [lowerChars, data_append, data_append, data_append, data_append]
    simp [List.map_append, List.append_assoc]
  rw [e]
  apply anySuffixP_append
  apply anySuffixP_append
  show anySuffixP retryAltAt
    (' ' :: ("keys failed".data
      ++ (" for ".data
        ++ (List.map Char.toLower m.data ++ List.map Char.toLower ".".data)))) = true
  apply anySuffixP_cons
  apply anySuffixP_head
  exact retryAlt_at_keys_failed _

/-- Retryable non-abort failures advance the key loop one attempt at a
time; a whole prefix of them is skipped. -/
theorem geminiKeyLoop_skip_retryable (model : String) (total : Nat) :
    ∀ (msgs : List String),
      (∀ m ∈ msgs, isRetryableError m = true ∧ strContains m "abort" = false) →
      ∀ (i : Nat) (rest : List FetchOutcome),
        geminiKeyLoop model total (fun _ => false) i (msgs.map FetchOutcome.thrown ++ rest)
          = geminiKeyLoop model total (fun _ => false) (i + msgs.length) rest := by
  intro msgs
  induction msgs with
  | nil => intro _ i rest; simp
  | cons m ms ih =>
    intro h i rest
    have hm := h m (List.mem_cons_self m ms)
    have hms : ∀ x ∈ ms, isRetryableError x = true ∧ strContains x "abort" = false :=
      fun x hx => h x (List.mem_cons_of_mem m hx)
    have step : geminiKeyLoop model total (fun _ => false) i
        (FetchOutcome.thrown m :: (ms.map FetchOutcome.thrown ++ rest))
        = geminiKeyLoop model total (fun _ => false) (i + 1)
            (ms.map FetchOutcome.thrown ++ rest) := by
      simp [geminiKeyLoop, runGeminiAttempt, hm.1, hm.2]
    have harith : i + (ms.length + 1) = (i + 1) + ms.length := by omega
    calc geminiKeyLoop model total (fun _ => false) i
          ((m :: ms).map FetchOutcome.thrown ++ rest)
        = geminiKeyLoop model total (fun _ => false) (i + 1)
            (ms.map FetchOutcome.thrown ++ rest) := step
      _ = geminiKeyLoop model total (fun _ => false) ((i + 1) + ms.length) rest :=
            ih hms (i + 1) rest
      _ = geminiKeyLoop model total (fun _ => false) (i + (m :: ms).length) rest := by
            rw [List.length_cons, harith]

/-- C4: in `callGeminiStreaming`, an in-stream error object (or prompt
block) arriving after at least one text or image chunk was produced makes
the call return a successful result whose text is exactly the concatenation
of the chunks received before the error; with no content produced yet, the
error is raised instead (to trigger key rotation). -/
theorem claim4_partial_content_returned :
    (∀ (model : String) (pre : List GeminiData) (code emsg : String)
       (rest : List GeminiData) (tail : List FetchOutcome),
      (∀ d ∈ pre, isErrEvent d = false) → eventsHave pre = true →
      callGeminiStreaming model
          (FetchOutcome.ok (pre ++ GeminiData.err code emsg :: rest) :: tail)
          (fun _ => false)
        = Except.ok (concatAll (eventChunks pre), eventImages pre))
  ∧ (∀ (pre : List GeminiData) (reason : String) (rest : List GeminiData),
      (∀ d ∈ pre, isErrEvent d = false) → eventsHave pre = true →
      runGeminiAttempt (FetchOutcome.ok (pre ++ GeminiData.noCand (some reason) :: rest))
        = Except.ok (concatAll (eventChunks pre), eventImages pre))
  ∧ (∀ (pre : List GeminiData) (code emsg : String) (rest : List GeminiData),
      (∀ d ∈ pre, isErrEvent d = false) → eventsHave pre = false →
      runGeminiAttempt (FetchOutcome.ok (pre ++ GeminiData.err code emsg :: rest))
        = Except.error ("Stream error " ++ code ++ ": " ++ strTake 200 emsg)) := by
  refine ⟨?_, ?_, ?_⟩
  · intro model pre code emsg rest tail h1 h2
    refine callGemini_first_ok model _ tail _ ?_
    rw [runAttempt_split pre (GeminiData.err code emsg :: rest) h1]
    simp [runGeminiEvents, h2]
  · intro pre reason rest h1 h2
    rw [runAttempt_split pre (GeminiData.noCand (some reason) :: rest) h1]
    simp [runGeminiEvents, h2]
  · intro pre code emsg rest h1 h2
    rw [runAttempt_split pre (GeminiData.err code emsg :: rest) h1]
    simp [runGeminiEvents, h2]

/-- Witness for C4 at a concrete stream: two text chunks, then an in-stream
error, then more (discarded) events; a second key is configured but not
needed. -/
theorem claim4_witness :
    callGeminiStreaming "gemini-2.5-flash"
        (FetchOutcome.ok
          [GeminiData.cand [⟨"Hello ", none⟩], GeminiData.cand [⟨"world", none⟩],
           GeminiData.err "503" "boom", GeminiData.cand [⟨"tail", none⟩]]
          :: [FetchOutcome.ok [GeminiData.cand [⟨"other", none⟩]]])
        (fun _ => false)
      = Except.ok ("Hello world", []) :=
  claim4_partial_content_returned.1 "gemini-2.5-flash"
    [GeminiData.cand [⟨"Hello ", none⟩], GeminiData.cand [⟨"world", none⟩]]
    "503" "boom" [GeminiData.cand [⟨"tail", none⟩]]
    [FetchOutcome.ok [GeminiData.cand [⟨"other", none⟩]]]
    (by decide) (by decide)

/-- C1 counterexample: the first key streams to a clean end with no content
at all, and a second key that would succeed is configured; the call
nevertheless aborts with `Empty response from model` instead of rotating to
the next key, so the claim as stated is false. -/
theorem claim1_counterexample :
    callGeminiStreaming "gemini-2.5-flash"
        [FetchOutcome.ok [], FetchOutcome.ok [GeminiData.cand [⟨"hi", none⟩]]]
        (fun _ => false)
      = Except.error "Empty response from model" := by decide

/-- C1 (amended): an empty terminal result is treated as a failure, but its
error message `Empty response from model` does not match the retryable
pattern, so the failure aborts the whole call instead of rotating to the
next key in the shuffled list. -/
theorem claim1_empty_result_aborts :
    isRetryableError "Empty response from model" = false
  ∧ (∀ (model : String) (evs : List GeminiData) (tail : List FetchOutcome),
      runGeminiAttempt (FetchOutcome.ok evs) = Except.error "Empty response from model" →
      callGeminiStreaming model (FetchOutcome.ok evs :: tail) (fun _ => false)
        = Except.error "Empty response from model") := by
  refine ⟨by decide, ?_⟩
  intro model evs tail h
  rw [callGeminiStreaming]
  simp [geminiKeyLoop, h,
        show strContains "Empty response from model" "abort" = false from by decide,
        show isRetryableError "Empty response from model" = false from by decide]

/-- Witness for C1 at a concrete input: an empty stream on the first key,
a succeeding second key. -/
theorem claim1_witness :
    callGeminiStreaming "gemini-2.0-flash"
        (FetchOutcome.ok [GeminiData.noCand none]
          :: [FetchOutcome.ok [GeminiData.cand [⟨"ok", none⟩]]])
        (fun _ => false)
      = Except.error "Empty response from model" :=
  claim1_empty_result_aborts.2 "gemini-2.0-flash" [GeminiData.noCand none]
    [FetchOutcome.ok [GeminiData.cand [⟨"ok", none⟩]]] (by decide)

/-- C2 counterexample: `auto-search` is a Google-backed strategy of the
auto-mode table with an empty fixed model list, yet `callAutoMode` raises
the terminal exhaustion error (with an empty diagnostic list), not a
configuration error naming a missing setting, so the claim as stated is
false for Google-backed strategies. -/
theorem claim2_counterexample :
    callAutoMode "auto-search" cfg0 [] autoEnv0
      = Except.error "Auto mode: all 0 models failed. Check API keys or try later.\n\n" := by
  decide

/-- C2 (amended): on an empty resolved candidate list, the OpenRouter-backed
branch raises `No OpenRouter models configured...` and the SambaNova-backed
branch raises `No SambaNova models configured.` before any provider attempt,
but the Google-backed branch performs no such check and falls through to the
terminal `all 0 models failed` error. -/
theorem claim2_empty_list_behavior :
    (∀ (cfg : AppConfig) (env : AutoEnv) (sOR : List String),
      sOR.Perm cfg.openrouterModels → cfg.openrouterModels = [] →
      callAutoMode "auto-openrouter" cfg sOR env
        = Except.error "No OpenRouter models configured. Add models in Settings → Models.")
  ∧ (∀ (ac : AutoModeConfig) (sOR : List String),
      ac.provider = Provider.sambanova → ac.models = [] →
      resolveModels ac sOR = Except.error "No SambaNova models configured.")
  ∧ (∀ (cfg : AppConfig) (env : AutoEnv),
      callAutoMode "auto-search" cfg [] env
        = Except.error "Auto mode: all 0 models failed. Check API keys or try later.\n\n") := by
  refine ⟨?_, ?_, ?_⟩
  · intro cfg env sOR hperm hempty
    have hsor : sOR = [] := by
      rw [hempty] at hperm
      exact hperm.eq_nil
    have hfind : autoFind "auto-openrouter"
        = some ⟨"OpenRouter", "Random free model", Provider.openrouter, []⟩ := by decide
    rw [callAutoMode, hfind]
    simp [resolveModels, hsor]
  · intro ac sOR hprov hempty
    rw [resolveModels, hprov]
    simp [hempty]
  · intro cfg env
    have hfind : autoFind "auto-search"
        = some ⟨"AI Search", "Google Search · grounded answers", Provider.google, []⟩ := by
      decide
    rw [callAutoMode, hfind]
    simp [resolveModels, autoLoop]
    rfl

/-- Witness for C2 at concrete inputs. -/
theorem claim2_witness :
    callAutoMode "auto-openrouter" cfg0 [] autoEnv0
        = Except.error "No OpenRouter models configured. Add models in Settings → Models."
  ∧ resolveModels ⟨"SambaNova", "Fast inference · auto-fallback", Provider.sambanova, []⟩ []
        = Except.error "No SambaNova models configured."
  ∧ callAutoMode "auto-search" cfg0 [] autoEnv0
        = Except.error "Auto mode: all 0 models failed. Check API keys or try later.\n\n" :=
  ⟨claim2_empty_list_behavior.1 cfg0 autoEnv0 [] (by decide) (by decide),
   claim2_empty_list_behavior.2.1
     ⟨"SambaNova", "Fast inference · auto-fallback", Provider.sambanova, []⟩ [] rfl rfl,
   claim2_empty_list_behavior.2.2 cfg0 autoEnv0⟩

/-- C3: in the Gemini key-rotation loop, a retryable non-cancellation error
advances to the next key, while a non-retryable non-cancellation error on
key k aborts the whole call with that error, so keys k+1..N are never
attempted (the result does not depend on the remaining outcomes). -/
theorem claim3_error_classification :
    (∀ (model : String) (total : Nat) (ab : Nat → Bool) (i : Nat) (msg : String)
       (rest : List FetchOutcome),
      ab i = false → isRetryableError msg = true → strContains msg "abort" = false →
      geminiKeyLoop model total ab i (FetchOutcome.thrown msg :: rest)
        = geminiKeyLoop model total ab (i + 1) rest)
  ∧ (∀ (model : String) (msgs : List String) (msg : String) (tail : List FetchOutcome),
      (∀ m ∈ msgs, isRetryableError m = true ∧ strContains m "abort" = false) →
      isRetryableError msg = false → strContains msg "abort" = false →
      callGeminiStreaming model
          (msgs.map FetchOutcome.thrown ++ FetchOutcome.thrown msg :: tail)
          (fun _ => false)
        = Except.error msg) := by
  constructor
  · intro model total ab i msg rest hab hretry habort
    simp [geminiKeyLoop, runGeminiAttempt, hab, hretry, habort]
  · intro model msgs msg tail hmsgs hretry habort
    rw [callGeminiStreaming]
    have hne : msgs.map FetchOutcome.thrown ++ FetchOutcome.thrown msg :: tail ≠ [] := by
      simp
    rw [if_neg hne]
    rw [geminiKeyLoop_skip_retryable model _ msgs hmsgs 0
          (FetchOutcome.thrown msg :: tail)]
    simp [geminiKeyLoop, runGeminiAttempt, hretry, habort]

/-- Witness for C3: one retryable failure (503) on the first key, then a
non-retryable failure on the second key; a working third key is never
reached. -/
theorem claim3_witness :
    geminiKeyLoop "gemini-2.5-pro" 3 (fun _ => false) 0
        (FetchOutcome.thrown "HTTP 503: overloaded"
          :: [FetchOutcome.thrown "Invalid request",
              FetchOutcome.ok [GeminiData.cand [⟨"good", none⟩]]])
      = geminiKeyLoop "gemini-2.5-pro" 3 (fun _ => false) 1
          [FetchOutcome.thrown "Invalid request",
           FetchOutcome.ok [GeminiData.cand [⟨"good", none⟩]]]
  ∧ callGeminiStreaming "gemini-2.5-pro"
        (["HTTP 503: overloaded"].map FetchOutcome.thrown
          ++ FetchOutcome.thrown "Invalid request"
            :: [FetchOutcome.ok [GeminiData.cand [⟨"good", none⟩]]])
        (fun _ => false)
      = Except.error "Invalid request" :=
  ⟨claim3_error_classification.1 "gemini-2.5-pro" 3 (fun _ => false) 0
      "HTTP 503: overloaded" _ rfl (by decide) (by decide),
   claim3_error_classification.2 "gemini-2.5-pro" ["HTTP 503: overloaded"]
      "Invalid request" [FetchOutcome.ok [GeminiData.cand [⟨"good", none⟩]]]
      (by decide) (by decide) (by decide)⟩

/-- C9: the terminal error of `callGeminiStreaming`
(`All N keys failed for <model>.`) matches the retryable pattern via
`keys? failed`, key exhaustion produces exactly that error, and in
`callAutoMode` a retryable non-cancellation candidate failure advances to
the next candidate model instead of aborting the chain. -/
theorem claim9_exhaustion_is_retryable :
    (∀ (nstr model : String),
      isRetryableError ("All " ++ nstr ++ " keys failed for " ++ model ++ ".") = true)
  ∧ (∀ (model : String) (msgs : List String),
      msgs ≠ [] →
      (∀ m ∈ msgs, isRetryableError m = true ∧ strContains m "abort" = false) →
      callGeminiStreaming model (msgs.map FetchOutcome.thrown) (fun _ => false)
        = Except.error ("All " ++ toString msgs.length ++ " keys failed for " ++ model ++ "."))
  ∧ (∀ (ac : AutoModeConfig) (cfg : AppConfig) (env : AutoEnv) (total i : Nat)
       (m : String) (rest errs : List String) (msg : String),
      env.aborted i = false →
      providerCall ac cfg env i m = Except.error msg →
      strContains msg "abort" = false →
      isRetryableError msg = true →
      autoLoop ac cfg env total i (m :: rest) errs
        = autoLoop ac cfg env total (i + 1) rest
            (errs ++ [getModelShortName m ++ ": " ++ strTake 80 msg])) := by
  refine ⟨?_, ?_, ?_⟩
  · intro nstr model
    exact allKeysFailed_retryable nstr model
  · intro model msgs hne hmsgs
    rw [callGeminiStreaming]
    rw [if_neg (by simpa using hne)]
    have h0 : geminiKeyLoop model (msgs.map FetchOutcome.thrown).length (fun _ => false) 0
        (msgs.map FetchOutcome.thrown ++ [])
        = geminiKeyLoop model (msgs.map FetchOutcome.thrown).length (fun _ => false)
            (0 + msgs.length) [] :=
      geminiKeyLoop_skip_retryable model _ msgs hmsgs 0 []
    rw [List.append_nil] at h0
    rw [h0]
    simp [geminiKeyLoop]
  · intro ac cfg env total i m rest errs msg hab hp habort hretry
    simp [autoLoop, hab, hp, habort, hretry]

/-- Witness for C9: two keys, both failing retryably, exhaust into the
`All 2 keys failed...` error, which is itself retryable; the auto-mode loop
advances past exactly that error. -/
theorem claim9_witness :
    isRetryableError "All 2 keys failed for gemini-2.5-flash." = true
  ∧ callGeminiStreaming "gemini-2.5-flash"
        (["HTTP 429: quota", "HTTP 500: internal"].map FetchOutcome.thrown)
        (fun _ => false)
      = Except.error "All 2 keys failed for gemini-2.5-flash."
  ∧ autoLoop ⟨"Gemini Fast", "Flash models · auto-fallback", Provider.google,
        ["gemini-flash-latest", "gemini-3-flash-preview", "gemini-2.5-flash",
         "gemini-2.0-flash"]⟩
        cfg0
        ⟨fun _ => false, fun _ => [FetchOutcome.thrown "HTTP 429: quota"],
         fun _ _ => false, fun _ => OAIOutcome.thrown ""⟩
        2 0 ["gemini-2.5-flash", "gemini-2.0-flash"] []
      = autoLoop ⟨"Gemini Fast", "Flash models · auto-fallback", Provider.google,
          ["gemini-flash-latest", "gemini-3-flash-preview", "gemini-2.5-flash",
           "gemini-2.0-flash"]⟩
          cfg0
          ⟨fun _ => false, fun _ => [FetchOutcome.thrown "HTTP 429: quota"],
           fun _ _ => false, fun _ => OAIOutcome.thrown ""⟩
          2 1 ["gemini-2.0-flash"]
          ["gemini-2.5-flash: All 1 keys failed for gemini-2.5-flash."] :=
  ⟨claim9_exhaustion_is_retryable.1 "2" "gemini-2.5-flash",
   claim9_exhaustion_is_retryable.2.1 "gemini-2.5-flash"
     ["HTTP 429: quota", "HTTP 500: internal"] (by decide) (by decide),
   claim9_exhaustion_is_retryable.2.2
     ⟨"Gemini Fast", "Flash models · auto-fallback", Provider.google,
      ["gemini-flash-latest", "gemini-3-flash-preview", "gemini-2.5-flash",
       "gemini-2.0-flash"]⟩
     cfg0
     ⟨fun _ => false, fun _ => [FetchOutcome.thrown "HTTP 429: quota"],
      fun _ _ => false, fun _ => OAIOutcome.thrown ""⟩
     2 0 "gemini-2.5-flash" ["gemini-2.0-flash"] []
     "All 1 keys failed for gemini-2.5-flash."
     rfl (by decide) (by decide) (by decide)⟩

/-- C7: the abort signal is checked before every credential attempt of the
Gemini loop and before every candidate attempt of the auto-mode and
grounded-search loops (the result does not depend on the pending outcomes);
the cancellation error is not classified retryable; and an error carrying
`abort` is re-raised verbatim by the key loop, the auto-mode loop, the
search loop and `callSearchMode` without being treated as a retryable
provider failure. -/
theorem claim7_cancellation :
    (∀ (model : String) (total : Nat) (ab : Nat → Bool) (i : Nat)
       (o : FetchOutcome) (rest : List FetchOutcome),
      ab i = true →
      geminiKeyLoop model total ab i (o :: rest) = Except.error "Request aborted")
  ∧ (∀ (ac : AutoModeConfig) (cfg : AppConfig) (env : AutoEnv) (total i : Nat)
       (m : String) (rest errs : List String),
      env.aborted i = true →
      autoLoop ac cfg env total i (m :: rest) errs = Except.error "Request aborted")
  ∧ (∀ (ab : Nat → Bool) (outs : Nat → SearchFetchOutcome) (i : Nat)
       (mk : String × String) (rest : List (String × String)),
      ab i = true →
      searchLoop ab outs i (mk :: rest) = Except.error "Request aborted")
  ∧ (isRetryableError "Request aborted" = false
      ∧ strContains "Request aborted" "abort" = true)
  ∧ (∀ (model : String) (total : Nat) (ab : Nat → Bool) (i : Nat)
       (o : FetchOutcome) (rest : List FetchOutcome) (msg : String),
      ab i = false → runGeminiAttempt o = Except.error msg →
      strContains msg "abort" = true →
      geminiKeyLoop model total ab i (o :: rest) = Except.error msg)
  ∧ (∀ (ac : AutoModeConfig) (cfg : AppConfig) (env : AutoEnv) (total i : Nat)
       (m : String) (rest errs : List String) (msg : String),
      env.aborted i = false →
      providerCall ac cfg env i m = Except.error msg →
      strContains msg "abort" = true →
      autoLoop ac cfg env total i (m :: rest) errs = Except.error msg)
  ∧ (∀ (ab : Nat → Bool) (outs : Nat → SearchFetchOutcome) (i : Nat)
       (mk : String × String) (rest : List (String × String)) (msg : String),
      ab i = false → runSearchAttempt (outs i) = Except.error msg →
      strContains msg "abort" = true →
      searchLoop ab outs i (mk :: rest) = Except.error msg)
  ∧ (∀ (messages : List ChatMessage) (cfg : AppConfig) (env : SearchEnv) (msg : String),
      jsTrim (lastUserQuery messages) ≠ "" → 0 < cfg.googleKeys.length →
      callGeminiWithSearch env.shuffledKeys env.priAborted env.priOutcomes
        = Except.error msg →
      strContains msg "abort" = true →
      (callSearchMode messages cfg env).1 = Except.error msg) := by
  refine ⟨?_, ?_, ?_, ⟨by decide, by decide⟩, ?_, ?_, ?_, ?_⟩
  · intro model total ab i o rest hab
    simp [geminiKeyLoop, hab]
  · intro ac cfg env total i m rest errs hab
    simp [autoLoop, hab]
  · intro ab outs i mk rest hab
    simp [searchLoop, hab]
  · intro model total ab i o rest msg hab hatt habort
    simp [geminiKeyLoop, hab, hatt, habort]
  · intro ac cfg env total i m rest errs msg hab hp habort
    simp [autoLoop, hab, hp, habort]
  · intro ab outs i mk rest msg hab hatt habort
    simp [searchLoop, hab, hatt, habort]
  · intro messages cfg env msg hq hk hp habort
    rw [callSearchMode, if_neg hq, if_pos hk, hp]
    simp [habort]

/-- Witness for C7 at concrete inputs: a fired signal before the first
attempt in each loop, and an abort error propagated through each layer. -/
theorem claim7_witness :
    geminiKeyLoop "gemini-2.5-flash" 1 (fun _ => true) 0
        [FetchOutcome.ok [GeminiData.cand [⟨"x", none⟩]]]
      = Except.error "Request aborted"
  ∧ autoLoop ⟨"SambaNova", "Fast inference · auto-fallback", Provider.sambanova,
        ["DeepSeek-V3.1"]⟩ cfg0
        ⟨fun _ => true, fun _ => [], fun _ _ => false, fun _ => OAIOutcome.ok ["x"]⟩
        1 0 ["DeepSeek-V3.1"] []
      = Except.error "Request aborted"
  ∧ searchLoop (fun _ => true) (fun _ => SearchFetchOutcome.ok [SearchData.cand ["x"] [] none])
        0 [("gemini-2.5-flash", "k")]
      = Except.error "Request aborted"
  ∧ geminiKeyLoop "gemini-2.5-flash" 2 (fun _ => false) 0
        (FetchOutcome.thrown "The operation was aborted."
          :: [FetchOutcome.ok [GeminiData.cand [⟨"x", none⟩]]])
      = Except.error "The operation was aborted."
  ∧ autoLoop ⟨"SambaNova", "Fast inference · auto-fallback", Provider.sambanova,
        ["DeepSeek-V3.1", "gpt-oss-120b"]⟩
        ⟨[], "", "sk", "", []⟩
        ⟨fun _ => false, fun _ => [], fun _ _ => false,
         fun _ => OAIOutcome.thrown "The operation was aborted."⟩
        2 0 ["DeepSeek-V3.1", "gpt-oss-120b"] []
      = Except.error "The operation was aborted."
  ∧ searchLoop (fun _ => false)
        (fun _ => SearchFetchOutcome.thrown "Request aborted") 0
        [("gemini-2.5-flash", "k"), ("gemini-2.0-flash", "k")]
      = Except.error "Request aborted"
  ∧ (callSearchMode [⟨Role.user, "weather", []⟩] ⟨["k"], "", "", "", []⟩
        ⟨["k"], fun _ => true, fun _ => SearchFetchOutcome.thrown "x",
         fun _ => false, fun _ => OAIOutcome.thrown "", OAIOutcome.thrown "",
         fun _ => none⟩).1
      = Except.error "Request aborted" :=
  ⟨claim7_cancellation.1 "gemini-2.5-flash" 1 (fun _ => true) 0
      (FetchOutcome.ok [GeminiData.cand [⟨"x", none⟩]]) [] rfl,
   claim7_cancellation.2.1
      ⟨"SambaNova", "Fast inference · auto-fallback", Provider.sambanova,
       ["DeepSeek-V3.1"]⟩ cfg0
      ⟨fun _ => true, fun _ => [], fun _ _ => false, fun _ => OAIOutcome.ok ["x"]⟩
      1 0 "DeepSeek-V3.1" [] [] rfl,
   claim7_cancellation.2.2.1 (fun _ => true)
      (fun _ => SearchFetchOutcome.ok [SearchData.cand ["x"] [] none]) 0
      ("gemini-2.5-flash", "k") [] rfl,
   claim7_cancellation.2.2.2.2.1 "gemini-2.5-flash" 2 (fun _ => false) 0
      (FetchOutcome.thrown "The operation was aborted.")
      [FetchOutcome.ok [GeminiData.cand [⟨"x", none⟩]]]
      "The operation was aborted." rfl rfl (by decide),
   claim7_cancellation.2.2.2.2.2.1
      ⟨"SambaNova", "Fast inference · auto-fallback", Provider.sambanova,
       ["DeepSeek-V3.1", "gpt-oss-120b"]⟩
      ⟨[], "", "sk", "", []⟩
      ⟨fun _ => false, fun _ => [], fun _ _ => false,
       fun _ => OAIOutcome.thrown "The operation was aborted."⟩
      2 0 "DeepSeek-V3.1" ["gpt-oss-120b"] [] "The operation was aborted."
      rfl (by decide) (by decide),
   claim7_cancellation.2.2.2.2.2.2.1 (fun _ => false)
      (fun _ => SearchFetchOutcome.thrown "Request aborted") 0
      ("gemini-2.5-flash", "k") [("gemini-2.0-flash", "k")] "Request aborted"
      rfl rfl (by decide),
   claim7_cancellation.2.2.2.2.2.2.2 [⟨Role.user, "weather", []⟩]
      ⟨["k"], "", "", "", []⟩
      ⟨["k"], fun _ => true, fun _ => SearchFetchOutcome.thrown "x",
       fun _ => false, fun _ => OAIOutcome.thrown "", OAIOutcome.thrown "",
       fun _ => none⟩
      "Request aborted" (by decide) (by decide) (by decide) (by decide)⟩

/-- C8: whenever the OpenRouter or SambaNova caller returns successfully,
the `images` component of the result is the empty list. -/
theorem claim8_no_images :
    (∀ (model apiKey : String) (outcome : OAIOutcome) (r : String × List String),
      callOpenRouter model apiKey outcome = Except.ok r → r.2 = [])
  ∧ (∀ (model apiKey : String) (outcome : OAIOutcome) (r : String × List String),
      callSambaNovaStreaming model apiKey outcome = Except.ok r → r.2 = []) := by
  constructor
  · intro model apiKey outcome r h
    by_cases hk : apiKey = ""
    · simp [callOpenRouter, hk] at h
    · cases outcome with
      | thrown m => simp [callOpenRouter, hk] at h
      | httpError st b => simp [callOpenRouter, hk] at h
      | ok deltas =>
        simp only [callOpenRouter, if_neg hk, Except.ok.injEq] at h
        subst h
        rfl
  · intro model apiKey outcome r h
    by_cases hk : apiKey = ""
    · simp [callSambaNovaStreaming, hk] at h
    · cases outcome with
      | thrown m => simp [callSambaNovaStreaming, hk] at h
      | httpError st b => simp [callSambaNovaStreaming, hk] at h
      | ok deltas =>
        simp only [callSambaNovaStreaming, if_neg hk, Except.ok.injEq] at h
        subst h
        rfl

/-- Witness for C8: concrete successful calls of both providers. -/
theorem claim8_witness :
    (("ab", ([] : List String)).2 = [] ∧ ("", ([] : List String)).2 = []) :=
  ⟨claim8_no_images.1 "vendor/model" "orkey" (OAIOutcome.ok ["a", "", "b"])
      ("ab", []) (by decide),
   claim8_no_images.2 "DeepSeek-V3.1" "sk" (OAIOutcome.ok []) ("", []) (by decide)⟩

/-- C6: `generateResponse` dispatches on the model identifier:
`auto-search` to search mode, any other key of the auto-mode table to auto
mode, otherwise a `gemini`-prefixed identifier to the Gemini caller,
otherwise a `DeepSeek-`/`gpt-oss-`-prefixed identifier to the SambaNova
caller, and every remaining identifier to the OpenRouter caller. -/
theorem claim6_dispatch :
    (∀ (messages : List ChatMessage) (cfg : AppConfig) (env : RouterEnv),
      generateResponse messages "auto-search" cfg env
        = (callSearchMode messages cfg env.search).1)
  ∧ (∀ (messages : List ChatMessage) (model : String) (cfg : AppConfig) (env : RouterEnv),
      isAutoMode model = true → model ≠ "auto-search" →
      generateResponse messages model cfg env
        = callAutoMode model cfg env.shuffledOpenrouterModels env.auto)
  ∧ (∀ (messages : List ChatMessage) (model : String) (cfg : AppConfig) (env : RouterEnv),
      isAutoMode model = false → jsStartsWith model "gemini" = true →
      generateResponse messages model cfg env
        = callGeminiStreaming model env.geminiAttempts env.geminiAborted)
  ∧ (∀ (messages : List ChatMessage) (model : String) (cfg : AppConfig) (env : RouterEnv),
      isAutoMode model = false → jsStartsWith model "gemini" = false →
      (jsStartsWith model "DeepSeek-" = true ∨ jsStartsWith model "gpt-oss-" = true) →
      generateResponse messages model cfg env
        = callSambaNovaStreaming model cfg.sambaKey env.sambaOutcome)
  ∧ (∀ (messages : List ChatMessage) (model : String) (cfg : AppConfig) (env : RouterEnv),
      isAutoMode model = false → jsStartsWith model "gemini" = false →
      jsStartsWith model "DeepSeek-" = false → jsStartsWith model "gpt-oss-" = false →
      generateResponse messages model cfg env
        = callOpenRouter model cfg.openrouterKey env.openrouterOutcome) := by
  refine ⟨?_, ?_, ?_, ?_, ?_⟩
  · intro messages cfg env
    rfl
  · intro messages model cfg env h1 h2
    simp [generateResponse, h1, h2]
  · intro messages model cfg env h1 h2
    have hne : model ≠ "auto-search" := by
      intro he
      rw [he] at h1
      exact absurd h1 (by decide)
    cases hAF : autoFind model with
    | some ac =>
      rw [isAutoMode, hAF] at h1
      simp at h1
    | none =>
      simp [generateResponse, hne, isAutoMode, hAF, isGoogleModel, h2]
  · intro messages model cfg env h1 h2 h3
    have hne : model ≠ "auto-search" := by
      intro he
      rw [he] at h1
      exact absurd h1 (by decide)
    cases hAF : autoFind model with
    | some ac =>
      rw [isAutoMode, hAF] at h1
      simp at h1
    | none =>
      rcases h3 with h3 | h3 <;>
        simp [generateResponse, hne, isAutoMode, hAF, isGoogleModel, isSambaModel, h2, h3]
  · intro messages model cfg env h1 h2 h3 h4
    have hne : model ≠ "auto-search" := by
      intro he
      rw [he] at h1
      exact absurd h1 (by decide)
    cases hAF : autoFind model with
    | some ac =>
      rw [isAutoMode, hAF] at h1
      simp at h1
    | none =>
      simp [generateResponse, hne, isAutoMode, hAF, isGoogleModel, isSambaModel, h2, h3, h4]

/-- Witness for C6 at one concrete identifier per dispatch branch. -/
theorem claim6_witness :
    generateResponse [] "auto-samba" cfg0 routerEnv0
        = callAutoMode "auto-samba" cfg0 routerEnv0.shuffledOpenrouterModels routerEnv0.auto
  ∧ generateResponse [] "gemini-2.0-flash" cfg0 routerEnv0
        = callGeminiStreaming "gemini-2.0-flash" routerEnv0.geminiAttempts
            routerEnv0.geminiAborted
  ∧ generateResponse [] "DeepSeek-V3.1" cfg0 routerEnv0
        = callSambaNovaStreaming "DeepSeek-V3.1" cfg0.sambaKey routerEnv0.sambaOutcome
  ∧ generateResponse [] "gpt-oss-120b" cfg0 routerEnv0
        = callSambaNovaStreaming "gpt-oss-120b" cfg0.sambaKey routerEnv0.sambaOutcome
  ∧ generateResponse [] "tngtech/deepseek-r1t2-chimera:free" cfg0 routerEnv0
        = callOpenRouter "tngtech/deepseek-r1t2-chimera:free" cfg0.openrouterKey
            routerEnv0.openrouterOutcome :=
  ⟨claim6_dispatch.2.1 [] "auto-samba" cfg0 routerEnv0 (by decide) (by decide),
   claim6_dispatch.2.2.1 [] "gemini-2.0-flash" cfg0 routerEnv0 (by decide) (by decide),
   claim6_dispatch.2.2.2.1 [] "DeepSeek-V3.1" cfg0 routerEnv0 (by decide) (by decide)
     (Or.inl (by decide)),
   claim6_dispatch.2.2.2.1 [] "gpt-oss-120b" cfg0 routerEnv0 (by decide) (by decide)
     (Or.inr (by decide)),
   claim6_dispatch.2.2.2.2 [] "tngtech/deepseek-r1t2-chimera:free" cfg0 routerEnv0
     (by decide) (by decide) (by decide) (by decide)⟩

/-- C5: when the primary grounded call succeeds with at least one grounding
source, search mode returns the answer text followed by the literal
`\n\n<!--SOURCES-->\n` marker, one Markdown link line per source (falling
back to the hostname of the URL — or the raw URL if it does not parse —
when the source has no title), then the literal closing SOURCES marker, so
the output ends with that marker; the collected sources of every successful
grounded decode are deduplicated by URL, and two grounding chunks with the
same URL yield exactly one entry. -/
theorem claim5_sources_block :
    (∀ (messages : List ChatMessage) (cfg : AppConfig) (env : SearchEnv)
       (text : String) (sources : List GSource),
      jsTrim (lastUserQuery messages) ≠ "" →
      0 < cfg.googleKeys.length →
      callGeminiWithSearch env.shuffledKeys env.priAborted env.priOutcomes
        = Except.ok (text, sources) →
      sources ≠ [] →
      (callSearchMode messages cfg env).1
        = Except.ok
            (text ++ "\n\n<!--SOURCES-->\n"
              ++ concatAll (sources.map (fun s =>
                   "- [" ++ (if s.title ≠ "" then s.title
                             else match env.hostname s.url with
                                  | some h => h
                                  | none => s.url)
                     ++ "](" ++ s.url ++ ")\n"))
              ++ "<!--/SOURCES-->", []))
  ∧ (∀ (evs : List SearchData) (text : String) (srcs : List GSource),
      runSearchEvents ⟨"", [], false⟩ evs = Except.ok (text, srcs) →
      (srcs.map GSource.url).Nodup)
  ∧ (∀ (u t1 t2 : String), u ≠ "" →
      addChunks [] [⟨u, t1⟩, ⟨u, t2⟩] = [⟨t1, u⟩]) := by
  refine ⟨?_, ?_, ?_⟩
  · intro messages cfg env text sources h1 h2 h3 h4
    have happ : appendSourcesBlock env.hostname text sources
        = text ++ "\n\n<!--SOURCES-->\n"
          ++ concatAll (sources.map (sourceLine env.hostname)) ++ "<!--/SOURCES-->" := by
      rw [appendSourcesBlock, if_pos (List.length_pos.mpr h4), fold_sourceLines]
    calc (callSearchMode messages cfg env).1
        = Except.ok (appendSourcesBlock env.hostname text sources, []) := by
          simp only [callSearchMode]
          rw [if_neg h1, if_pos h2, h3]
      _ = Except.ok
            (text ++ "\n\n<!--SOURCES-->\n"
              ++ concatAll (sources.map (sourceLine env.hostname))
              ++ "<!--/SOURCES-->", []) := by rw [happ]
      _ = _ := rfl
  · intro evs text srcs he
    exact runSearchEvents_nodup evs ⟨"", [], false⟩ text srcs (by simp) he
  · intro u t1 t2 hu
    have h1 : addChunk [] ⟨u, t1⟩ = [⟨t1, u⟩] := by
      simp [addChunk, hu]
    have h2 : addChunk [⟨t1, u⟩] ⟨u, t2⟩ = [⟨t1, u⟩] := by
      simp [addChunk]
    show addChunk (addChunk [] ⟨u, t1⟩) ⟨u, t2⟩ = [⟨t1, u⟩]
    rw [h1, h2]

/-- Witness for C5: a grounded answer with two same-URL chunks, one entry in
the block, output ending in the closing marker. -/
theorem claim5_witness :
    (callSearchMode [⟨Role.user, "hi", []⟩] ⟨["k"], "", "", "", []⟩
        ⟨["k"], fun _ => false,
         fun _ => SearchFetchOutcome.ok
           [SearchData.cand ["answer"] [⟨"https://a.com", "A"⟩, ⟨"https://a.com", "B"⟩] none],
         fun _ => false, fun _ => OAIOutcome.thrown "", OAIOutcome.thrown "",
         fun _ => none⟩).1
      = Except.ok ("answer\n\n<!--SOURCES-->\n- [A](https://a.com)\n<!--/SOURCES-->", [])
  ∧ ([⟨"A", "https://a.com"⟩].map GSource.url).Nodup
  ∧ addChunks [] [⟨"https://a.com", "A"⟩, ⟨"https://a.com", "B"⟩]
      = [⟨"A", "https://a.com"⟩] :=
  ⟨claim5_sources_block.1 [⟨Role.user, "hi", []⟩] ⟨["k"], "", "", "", []⟩
     ⟨["k"], fun _ => false,
      fun _ => SearchFetchOutcome.ok
        [SearchData.cand ["answer"] [⟨"https://a.com", "A"⟩, ⟨"https://a.com", "B"⟩] none],
      fun _ => false, fun _ => OAIOutcome.thrown "", OAIOutcome.thrown "",
      fun _ => none⟩
     "answer" [⟨"A", "https://a.com"⟩]
     (by decide) (by decide) (by decide) (by decide),
   claim5_sources_block.2.1
     [SearchData.cand ["answer"] [⟨"https://a.com", "A"⟩, ⟨"https://a.com", "B"⟩] none]
     "answer" [⟨"A", "https://a.com"⟩] (by decide),
   claim5_sources_block.2.2 "https://a.com" "A" "B" (by decide)⟩

/-- C10: with model `auto-search`, `generateResponse` delegates to search
mode, and a missing, empty or whitespace-only last-message content fails
immediately with `Empty query`: for every environment the result is that
error and the emitted effect trace is empty (no reset callback, no log, no
provider attempt). -/
theorem claim10_empty_query :
    (∀ (messages : List ChatMessage) (cfg : AppConfig) (env : RouterEnv),
      generateResponse messages "auto-search" cfg env
        = (callSearchMode messages cfg env.search).1)
  ∧ (∀ (messages : List ChatMessage) (cfg : AppConfig) (env : SearchEnv),
      jsTrim (lastUserQuery messages) = "" →
      callSearchMode messages cfg env = (Except.error "Empty query", []))
  ∧ (∀ (cfg : AppConfig) (env : SearchEnv),
      callSearchMode [] cfg env = (Except.error "Empty query", [])) := by
  refine ⟨fun _ _ _ => rfl, ?_, ?_⟩
  · intro messages cfg env h
    simp only [callSearchMode, if_pos h]
  · intro cfg env
    have h : jsTrim (lastUserQuery []) = "" := by decide
    simp only [callSearchMode, if_pos h]

/-- Witness for C10: a whitespace-only query and a fully inert environment. -/
theorem claim10_witness :
    callSearchMode [⟨Role.user, " \t ", []⟩] cfg0 searchEnv0
      = (Except.error "Empty query", []) :=
  claim10_empty_query.2.1 [⟨Role.user, " \t ", []⟩] cfg0 searchEnv0 (by decide)

end AlexChat
